import Mathlib

/-!
Shallow embedding of the dimred repository pipeline
(files src/keyfi/dimred.py and src/dimred/dimred_interactive.py).

Modelling conventions:
* a pandas DataFrame is a list of named columns of rational values,
  aligned positionally (rows are positional, matching reset_index);
* Python exceptions (ValueError, TypeError, KeyError) are `Except String`;
* a function that mutates its argument in place returns the final state of
  that argument next to its ordinary result;
* external collaborators (sklearn scalers, UMAP, TSNE, seaborn palettes,
  hdbscan membership vectors, the pyvista ghost threshold filter) are
  parameters of the embedding, as the spec declares them out of scope.
-/

set_option autoImplicit false

namespace DimRed

abbrev Col := List ℚ

/-- A pandas DataFrame: named columns, aligned positionally. -/
structure DataFrame where
  cols : List (String × Col)
deriving DecidableEq

/-- The list of column names (pandas `data.columns`), in order. -/
def DataFrame.columns (df : DataFrame) : List String := df.cols.map Prod.fst

/-- Membership test `name in data.columns`. -/
def DataFrame.hasCol (df : DataFrame) (n : String) : Bool := df.columns.contains n

/-- Column lookup by name (first match). -/
def DataFrame.getCol (df : DataFrame) (n : String) : Option Col :=
  (df.cols.find? (fun p => p.1 == n)).map Prod.snd

/-- Column lookup with empty-column default. -/
def DataFrame.getColD (df : DataFrame) (n : String) : Col := (df.getCol n).getD []

/-- Keep the entries of `xs` whose positional mask bit is true. -/
def maskKeep {α : Type} (mask : List Bool) (xs : List α) : List α :=
  (mask.zip xs).filterMap (fun bx => if bx.1 then some bx.2 else none)

/-- The row mask kept by `data.drop(data[data.vtkGhostType == 2].index)`:
a row survives iff its ghost value differs from 2. -/
def rowsKeptMask (ghost : Col) : List Bool := ghost.map (fun x => decide (x ≠ 2))

/-- In-place removal of the rows whose vtkGhostType value equals 2
(`clean_data`, the `inplace=True` row drop). -/
def dropGhostRows (df : DataFrame) : DataFrame :=
  ⟨df.cols.map (fun p => (p.1, maskKeep (rowsKeptMask (df.getColD "vtkGhostType")) p.2))⟩

/-- The state of the caller table after the ghost-row step of `clean_data`:
rows are removed in place only when the vtkGhostType column is present. -/
def applyGhostRowDrop (df : DataFrame) : DataFrame :=
  if df.hasCol "vtkGhostType" then dropGhostRows df else df

/-- An element of the Python list `cols_to_drop` in `clean_data`: the code
appends plain strings, except for the spatial coordinates where it appends a
whole list (a nested, unhashable label). -/
inductive DropEntry where
  | single (s : String)
  | group (ss : List String)
deriving DecidableEq

/-- `data.drop(columns=cols_to_drop)`: pandas hashes every label, so a nested
list label raises TypeError (unhashable) before anything is dropped; a plain
label that is not a column raises KeyError; otherwise the named columns are
removed and all remaining columns are untouched. -/
def dropColumns (df : DataFrame) (entries : List DropEntry) : Except String DataFrame :=
  if entries.any (fun e => match e with | .group _ => true | .single _ => false) then
    .error "unhashable type: list"
  else
    let names := entries.filterMap (fun e => match e with | .single s => some s | .group _ => none)
    if names.all (fun n => df.hasCol n) then
      .ok ⟨df.cols.filter (fun p => !(names.contains p.1))⟩
    else
      .error "label not found in axis"

/-- `data[[var for var in vars_to_keep]]`: column selection by name, in the
given order; a missing name raises KeyError. -/
def selectCols (df : DataFrame) (keep : List String) : Except String DataFrame :=
  if keep.all (fun n => df.hasCol n) then
    .ok ⟨keep.map (fun n => (n, df.getColD n))⟩
  else
    .error "column not found"

/-- `clean_data(data, dim, vars_to_drop, vars_to_keep)` from src/keyfi/dimred.py.
Returns the final state of the caller table (first component, since the ghost
row removal is in place) together with the returned value or raised error
(second component). `reset_index(drop=True)` is a no-op here because rows are
positional. -/
def clean_data (data : DataFrame) (dim : Int) (vars_to_drop : Option (List String))
    (vars_to_keep : Option (List String)) : DataFrame × Except String DataFrame :=
  if ¬ (dim = 2 ∨ dim = 3) then
    (data, .error "dim can only be 2 or 3")
  else
    let e1 : List DropEntry :=
      if data.hasCol "Points:0" then [.group ["Points:0", "Points:1", "Points:2"]] else []
    let data1 := applyGhostRowDrop data
    let e2 := e1 ++ (if data.hasCol "vtkGhostType" then [.single "vtkGhostType"] else [])
    match vars_to_keep with
    | some keep => (data1, selectCols data1 keep)
    | none =>
      let e3 := e2 ++ (if data1.hasCol "U:0" ∧ dim = 2 then [.single "U:2"] else [])
      let e4 := e3 ++ (match vars_to_drop with | none => [] | some vs => vs.map .single)
      (data1, dropColumns data1 e4)

/-- Result of `scale_data`: the whole-table branch returns a plain numeric
array (rows of values), the single-feature branch returns a DataFrame copy. -/
inductive ScaledData where
  | arr (rows : List Col)
  | table (df : DataFrame)
deriving DecidableEq

/-- `np.transpose` of a list of equal-length columns, giving the row-major
array produced by a whole-table sklearn `fit_transform`. -/
def transposeCols (cols : List Col) : List Col :=
  (List.range (cols.headD []).length).map (fun i => cols.map (fun c => c.getD i 0))

/-- Dispatch on the scaler name, mirroring the if/elif chain of `scale_data`.
The three sklearn column transforms are parameters (external collaborators). -/
def applyScaler (fStd fMM fMA : Col → Col) (scaler : String) (c : Col) : Col :=
  if scaler = "MinMaxScaler" then fMM c
  else if scaler = "StandardScaler" then fStd c
  else fMA c

/-- `scale_data(data, scaler, feature)` from src/keyfi/dimred.py. Validates the
scaler name against the three sklearn class names, then validates
`feature not in data.columns` (note: this check runs before the
`feature == 'All'` branch), then either scales the whole table into a plain
array or scales the single named column on a copy of the table. -/
def scale_data (fStd fMM fMA : Col → Col) (data : DataFrame) (scaler feature : String) :
    Except String ScaledData :=
  if !(["MinMaxScaler", "StandardScaler", "MaxAbsScaler"].contains scaler) then
    .error "invalid scaler"
  else if !(data.hasCol feature) then
    .error "invalid feature"
  else if feature = "All" then
    .ok (.arr (transposeCols (data.cols.map (fun p => applyScaler fStd fMM fMA scaler p.2))))
  else
    .ok (.table ⟨data.cols.map (fun p =>
      if p.1 = feature then (p.1, applyScaler fStd fMM fMA scaler p.2) else p)⟩)

/-- The `algorithm` argument of `embed_data`: the two supported classes, or any
other Python object (class identity comparison). -/
inductive AlgoKind where
  | umap
  | tsne
  | other (name : String)
deriving DecidableEq

/-- The value handed to the reducer inside `embed_data`: the raw DataFrame
when `scale` is false, the output of `scale_data` otherwise. -/
inductive EmbedInput where
  | raw (df : DataFrame)
  | scaled (sd : ScaledData)
deriving DecidableEq

/-- The `data` value reaching the reducer in `embed_data`: the optional
scaling step, which can fail inside `scale_data`. -/
def scaledInput (fStd fMM fMA : Col → Col) (data : DataFrame) (scale : Bool)
    (scaler feature : String) : Except String EmbedInput :=
  if scale then (scale_data fStd fMM fMA data scaler feature).map .scaled
  else .ok (.raw data)

/-- `embed_data(data, algorithm, scale, scaler, feature, params)` from
src/keyfi/dimred.py. `fit`, `transform` and `fitTransform` are the external
UMAP/TSNE operations (the constructed reducer with its forwarded params);
`M` is the fitted-model type, `E` the embedding type. UMAP: fit once, then
transform the same data, return the mapper. TSNE: mapper is None and a single
combined fit-and-transform produces the embedding. An unsupported algorithm
is rejected before any scaling or fitting. -/
def embed_data {M E : Type} (fit : EmbedInput → M) (transform : M → EmbedInput → E)
    (fitTransform : EmbedInput → E) (fStd fMM fMA : Col → Col) (data : DataFrame)
    (algorithm : AlgoKind) (scale : Bool) (scaler feature : String) :
    Except String (E × Option M) :=
  match algorithm with
  | .other _ => .error "invalid algorithm"
  | .umap =>
    (scaledInput fStd fMM fMA data scale scaler feature).bind fun d =>
      let mapper := fit d
      .ok (transform mapper d, some mapper)
  | .tsne =>
    (scaledInput fStd fMM fMA data scale scaler feature).bind fun d =>
      .ok (fitTransform d, none)

/-- A named mesh array: 1-D (scalar candidate) or 2-D (vector candidate). -/
inductive MeshArray where
  | oneD (vals : Col)
  | twoD (vals : List Col)
deriving DecidableEq

/-- A pyvista mesh: a declared point count and an ordered collection of named
arrays. -/
structure Mesh where
  n_points : Nat
  arrays : List (String × MeshArray)
deriving DecidableEq

/-- `np.size` of a mesh array: total element count. -/
def MeshArray.size : MeshArray → Nat
  | .oneD v => v.length
  | .twoD m => (m.map List.length).sum

/-- A mesh array viewed as one table column (taken by the scalar block of
`import_vtk_data`; scalar arrays are 1-D there). -/
def MeshArray.asColumn : MeshArray → Col
  | .oneD v => v
  | .twoD m => m.foldr (· ++ ·) []

/-- The ordered array names of a mesh (`mesh.array_names`). -/
def Mesh.arrayNames (m : Mesh) : List String := m.arrays.map Prod.fst

/-- `mesh.get_array(name)` (first match). -/
def Mesh.getArray (m : Mesh) (n : String) : Option MeshArray :=
  (m.arrays.find? (fun p => p.1 == n)).map Prod.snd

/-- Column `i` of a 2-D mesh array. -/
def matrixColumn (m : List Col) (i : Nat) : Col := m.map (fun r => r.getD i 0)

/-- The component columns `name:0 … name:{d-1}` created by
`df[[vector_name + ':' + str(i) for i in range(dim)]] = mesh.get_array(...)`,
where `dim` is `shape[1]` of the 2-D array. -/
def vectorComponentCols (name : String) (m : List Col) : List (String × Col) :=
  (List.range (m.headD []).length).map (fun i => (name ++ ":" ++ toString i, matrixColumn m i))

/-- `import_vtk_data` from src/keyfi/dimred.py (after `pv.read`): apply the
external ghost threshold filter when a vtkGhostType array is present, detect
vector arrays by `np.size != mesh.n_points`, build the table from the scalar
arrays in order, then append the component columns of each vector array
(arrays reported as 1-D are skipped from expansion). -/
def import_vtk_data (ghostThreshold : Mesh → Mesh) (mesh0 : Mesh) : DataFrame :=
  let mesh := if mesh0.arrayNames.contains "vtkGhostType" then ghostThreshold mesh0 else mesh0
  let vector_names := mesh.arrays.filterMap
    (fun p => if p.2.size ≠ mesh.n_points then some p.1 else none)
  let scalars := mesh.arrays.filter (fun p => !(vector_names.contains p.1))
  let df : DataFrame := ⟨scalars.map (fun p => (p.1, p.2.asColumn))⟩
  vector_names.foldl (fun acc name =>
    match mesh.getArray name with
    | some (.twoD m) => ⟨acc.cols ++ vectorComponentCols name m⟩
    | _ => acc) df

/-- `mesh['clusters'] = cluster_labels` in pyvista: overwrite the array when
the name already exists, append it otherwise. -/
def meshSetArray (arrays : List (String × MeshArray)) (name : String) (v : MeshArray) :
    List (String × MeshArray) :=
  if arrays.any (fun p => p.1 == name) then
    arrays.map (fun p => if p.1 == name then (p.1, v) else p)
  else
    arrays ++ [(name, v)]

/-- `export_vtk_data(mesh, path, cluster_labels)` from src/keyfi/dimred.py
(identical in src/dimred/dimred_interactive.py): when labels are given, set
the clusters array on the mesh, then save; the returned mesh is the state
written by `mesh.save(path)`. -/
def export_vtk_data (mesh : Mesh) (cluster_labels : Option Col) : Mesh :=
  match cluster_labels with
  | some ls => { mesh with arrays := meshSetArray mesh.arrays "clusters" (.oneD ls) }
  | none => mesh

/-- A color as the hue-lightness-saturation triple seaborn works in. -/
abbrev Color := ℚ × ℚ × ℚ

/-- The fixed neutral gray `(0.5, 0.5, 0.5)` used for the noise label. -/
def grayColor : Color := (1/2, 1/2, 1/2)

/-- Saturation multiplied by `p` (the effect of `sns.desaturate` on a color,
in hue-lightness-saturation space). -/
def scaleSaturation (c : Color) (p : ℚ) : Color := (c.1, c.2.1, c.2.2 * p)

/-- `sns.desaturate(color, prop)`: rejects a proportion outside [0, 1], then
multiplies the saturation channel by it. -/
def desaturate (c : Color) (p : ℚ) : Except String Color :=
  if 0 ≤ p ∧ p ≤ 1 then .ok (scaleSaturation c p) else .error "prop must be between 0 and 1"

/-- The list comprehension `[sns.desaturate(x, p) for x, p in zip(...)]`:
the first invalid proportion raises. -/
def desaturateAll : List (Color × ℚ) → Except String (List Color)
  | [] => .ok []
  | cp :: rest =>
    match desaturate cp.1 cp.2 with
    | .error e => .error e
    | .ok c => (desaturateAll rest).map (c :: ·)

/-- `np.argmax` over a 1-D list: index of the first maximum (0 on empty). -/
def argmaxAux : Nat → ℚ → Nat → List ℚ → Nat
  | bi, _, _, [] => bi
  | bi, bv, i, x :: xs => if bv < x then argmaxAux i x (i + 1) xs else argmaxAux bi bv (i + 1) xs

/-- `np.argmax` of a list of rationals. -/
def listArgmax : List ℚ → Nat
  | [] => 0
  | x :: xs => argmaxAux 0 x 1 xs

/-- The hdbscan clusterer attributes read by the colorizer: hard labels,
per-point probabilities, and the soft membership vectors returned by the
external `hdbscan.all_points_membership_vectors`. -/
structure HdbscanClusterer where
  labels : List Int
  probabilities : List ℚ
  membershipVectors : List (List ℚ)
deriving DecidableEq

/-- `color_palette[x] if x >= 0 else (0.5, 0.5, 0.5)`: the hard-label color
of one point. -/
def hardLabelColor (palette : List Color) (x : Int) : Color :=
  if 0 ≤ x then palette.getD x.toNat grayColor else grayColor

/-- The palette built by `_set_cluster_member_colors`: husl with one entry per
cluster, one fewer when the noise label -1 is present (gray is reserved for
noise). `husl` is the external seaborn palette generator. -/
def hdbPalette (husl : Nat → List Color) (cl : HdbscanClusterer) : List Color :=
  if cl.labels.contains (-1) then husl (cl.labels.dedup.length - 1)
  else husl (cl.labels.dedup.length)

/-- `_set_cluster_member_colors(clusterer, soft)` from
src/dimred/dimred_interactive.py: pick each point base color (soft: palette
entry of the argmax of its membership vector; hard: palette entry of its
label, gray for noise), then desaturate every base color by the point
probability. Returns the member colors and the palette. -/
def set_cluster_member_colors (husl : Nat → List Color) (cl : HdbscanClusterer) (soft : Bool) :
    Except String (List Color × List Color) :=
  let color_palette := hdbPalette husl cl
  let cluster_colors : List Color :=
    if soft then cl.membershipVectors.map (fun v => color_palette.getD (listArgmax v) grayColor)
    else cl.labels.map (hardLabelColor color_palette)
  (desaturateAll (cluster_colors.zip cl.probabilities)).map (fun cs => (cs, color_palette))

/-! Helper lemmas shared by several theorems. -/

theorem columns_dropGhostRows (df : DataFrame) : (dropGhostRows df).columns = df.columns := by
  simp [dropGhostRows, DataFrame.columns, List.map_map]

theorem columns_applyGhostRowDrop (df : DataFrame) :
    (applyGhostRowDrop df).columns = df.columns := by
  unfold applyGhostRowDrop
  split
  · exact columns_dropGhostRows df
  · rfl

theorem hasCol_applyGhostRowDrop (df : DataFrame) (n : String) :
    (applyGhostRowDrop df).hasCol n = df.hasCol n := by
  simp [DataFrame.hasCol, columns_applyGhostRowDrop]

theorem applyGhostRowDrop_of_no_ghost (df : DataFrame) (h : df.hasCol "vtkGhostType" = false) :
    applyGhostRowDrop df = df := by
  simp [applyGhostRowDrop, h]

/-! Theorems for the claims, with their witnesses and counterexamples. -/

/-- C7: for every table and every dim value other than 2 or 3, `clean_data`
raises the invalid-argument error before any mutation occurs: the caller
table is returned exactly as given and the result is the error. -/
theorem clean_data_invalid_dim (data : DataFrame) (dim : Int) (vtd vtk : Option (List String))
    (h : dim ≠ 2 ∧ dim ≠ 3) :
    clean_data data dim vtd vtk = (data, .error "dim can only be 2 or 3") := by
  simp [clean_data, h.1, h.2]

/-- C7 witness: `dim = 4` on a concrete table. -/
theorem clean_data_invalid_dim_witness :
    clean_data ⟨[("A", [1])]⟩ 4 none none = (⟨[("A", [1])]⟩, .error "dim can only be 2 or 3") :=
  clean_data_invalid_dim ⟨[("A", [1])]⟩ 4 none none ⟨by decide, by decide⟩

/-- C1 (code bug): with the whole-table sentinel, `scale_data` raises the
invalid-feature error for a table without a column literally named All,
because the membership check runs before the sentinel branch; the claimed
whole-table scaling never happens. -/
theorem scale_data_all_sentinel_rejected :
    scale_data id id id ⟨[("a", [1, 2]), ("b", [3, 4])]⟩ "StandardScaler" "All" =
      .error "invalid feature" := by
  rfl

/-- C4 (code bug): on a table holding the three spatial coordinate columns,
`clean_data` passes the nested label list to the column drop, which raises
instead of removing the coordinates. -/
theorem clean_data_points_drop_raises :
    clean_data ⟨[("Points:0", [1]), ("Points:1", [2]), ("Points:2", [3]), ("T", [4])]⟩
        2 none none =
      (⟨[("Points:0", [1]), ("Points:1", [2]), ("Points:2", [3]), ("T", [4])]⟩,
        .error "unhashable type: list") := by
  rfl

/-- C3 counterexample: with a ghost column present and the keep-list path
taken, the caller table loses a row in place, so the claimed no-mutation
guarantee fails. -/
theorem clean_data_mutates_caller_on_keep_path :
    (clean_data ⟨[("A", [1, 2]), ("vtkGhostType", [0, 2])]⟩ 2 none (some ["A"])).1 =
        ⟨[("A", [1]), ("vtkGhostType", [0])]⟩ ∧
      (clean_data ⟨[("A", [1, 2]), ("vtkGhostType", [0, 2])]⟩ 2 none (some ["A"])).1 ≠
        ⟨[("A", [1, 2]), ("vtkGhostType", [0, 2])]⟩ := by
  constructor
  · rfl
  · decide

/-- C3 amended: on both paths `clean_data` leaves the caller table equal to
the ghost-row-drop of the input: columns are never removed from the caller
table, but rows flagged by vtkGhostType are removed from it in place; when no
ghost column is present the caller table is unmodified. -/
theorem clean_data_caller_table (data : DataFrame) (dim : Int) (vtd vtk : Option (List String))
    (h : dim = 2 ∨ dim = 3) :
    (clean_data data dim vtd vtk).1 = applyGhostRowDrop data ∧
      (applyGhostRowDrop data).columns = data.columns ∧
      (data.hasCol "vtkGhostType" = false → applyGhostRowDrop data = data) := by
  refine ⟨?_, columns_applyGhostRowDrop data, applyGhostRowDrop_of_no_ghost data⟩
  obtain rfl | rfl := h <;> cases vtk <;> simp [clean_data]

/-- C3 amended witness: a ghost-free table is left unmodified. -/
theorem clean_data_caller_table_witness :
    (clean_data ⟨[("x", [5])]⟩ 3 none none).1 = applyGhostRowDrop ⟨[("x", [5])]⟩ ∧
      (applyGhostRowDrop (⟨[("x", [5])]⟩ : DataFrame)).columns =
        (⟨[("x", [5])]⟩ : DataFrame).columns ∧
      ((⟨[("x", [5])]⟩ : DataFrame).hasCol "vtkGhostType" = false →
        applyGhostRowDrop ⟨[("x", [5])]⟩ = ⟨[("x", [5])]⟩) :=
  clean_data_caller_table ⟨[("x", [5])]⟩ 3 none none (Or.inr rfl)

/-- C6: when `vars_to_keep` is supplied (and dim is valid and the kept names
exist), the result is exactly those columns, in the given order, regardless
of `dim` rules and of `vars_to_drop`. -/
theorem clean_data_keep_wins (data : DataFrame) (dim : Int) (vtd : Option (List String))
    (keep : List String) (h : dim = 2 ∨ dim = 3) (hk : ∀ n ∈ keep, data.hasCol n = true) :
    (clean_data data dim vtd (some keep)).2 =
        .ok ⟨keep.map (fun n => (n, (applyGhostRowDrop data).getColD n))⟩ ∧
      DataFrame.columns ⟨keep.map (fun n => (n, (applyGhostRowDrop data).getColD n))⟩ = keep := by
  constructor
  · have hall : keep.all (fun n => (applyGhostRowDrop data).hasCol n) = true := by
      rw [List.all_eq_true]
      intro n hn
      rw [hasCol_applyGhostRowDrop]
      exact hk n hn
    obtain rfl | rfl := h <;> simp [clean_data, selectCols, hall]
  · rw [DataFrame.columns, List.map_map,
      show (Prod.fst ∘ fun n => (n, (applyGhostRowDrop data).getColD n)) = id from rfl,
      List.map_id]

/-- C6 witness: keeping A while also asking to drop A on a table with columns
A and B returns the single-column table A — keep wins. -/
theorem clean_data_keep_wins_witness :
    (clean_data ⟨[("A", [1]), ("B", [2])]⟩ 2 (some ["A"]) (some ["A"])).2 =
      .ok ⟨[("A", [1])]⟩ := by
  have h := clean_data_keep_wins ⟨[("A", [1]), ("B", [2])]⟩ 2 (some ["A"]) ["A"]
    (Or.inl rfl) (by decide)
  exact h.1.trans (by rfl)

/-- C5 counterexample: a table with the planar vector columns and the spatial
coordinate columns makes `clean_data` raise (nested drop label), so the
planar rule does not hold for every table containing U:0, U:1, U:2. -/
theorem clean_data_planar_rule_fails_with_points :
    (clean_data ⟨[("Points:0", [0]), ("Points:1", [0]), ("Points:2", [0]),
        ("U:0", [1]), ("U:1", [2]), ("U:2", [3])]⟩ 2 none none).2 =
      .error "unhashable type: list" := by
  rfl

/-- C5 amended: on a table containing U:0 and U:2 but no spatial coordinate
column and no ghost column, `clean_data` with dim 2 and no keep-list drops
exactly U:2 together with the caller-requested drops, leaving every other
column (U:0 and U:1 included) untouched and the caller table unmodified. -/
theorem clean_data_planar_rule (data : DataFrame) (vtd : Option (List String))
    (hU0 : data.hasCol "U:0" = true) (hU2 : data.hasCol "U:2" = true)
    (hp : data.hasCol "Points:0" = false) (hg : data.hasCol "vtkGhostType" = false)
    (hv : ∀ n ∈ vtd.getD [], data.hasCol n = true) :
    (clean_data data 2 vtd none).2 =
        .ok ⟨data.cols.filter (fun p => !(("U:2" :: vtd.getD []).contains p.1))⟩ ∧
      (clean_data data 2 vtd none).1 = data := by
  have hAg : applyGhostRowDrop data = data := applyGhostRowDrop_of_no_ghost data hg
  cases vtd with
  | none =>
    constructor
    · simp [clean_data, hp, hg, hAg, hU0, dropColumns, hU2]
    · simp [clean_data, hAg]
  | some vs =>
    have hvs : vs.all (fun n => data.hasCol n) = true := by
      rw [List.all_eq_true]
      intro n hn
      exact hv n hn
    constructor
    · simp [clean_data, hp, hg, hAg, hU0, dropColumns, hU2, List.any_map, List.filterMap_map,
        hvs]
    · simp [clean_data, hAg]

/-- C5 amended witness: a concrete table with U:0, U:1, U:2 and one extra
column loses exactly U:2. -/
theorem clean_data_planar_rule_witness :
    (clean_data ⟨[("U:0", [1]), ("U:1", [2]), ("U:2", [3]), ("T", [4])]⟩ 2 none none).2 =
      .ok ⟨[("U:0", [1]), ("U:1", [2]), ("T", [4])]⟩ := by
  have h := clean_data_planar_rule ⟨[("U:0", [1]), ("U:1", [2]), ("U:2", [3]), ("T", [4])]⟩
    none (by decide) (by decide) (by decide) (by decide) (by decide)
  exact h.1.trans (by rfl)

/-- C8: for both supported algorithm families, whenever the optional scaling
step resolves to an input `d`, `embed_data` returns the dispatch result the
spec describes: UMAP fits once, transforms the same data and returns the
fitted mapper; TSNE uses one combined fit-and-transform and returns the none
sentinel as its model. -/
theorem embed_data_dispatch {M E : Type} (fit : EmbedInput → M) (transform : M → EmbedInput → E)
    (fitTransform : EmbedInput → E) (fS fM fA : Col → Col) (data : DataFrame) (scale : Bool)
    (scaler feature : String) (d : EmbedInput)
    (h : scaledInput fS fM fA data scale scaler feature = .ok d) :
    embed_data fit transform fitTransform fS fM fA data .umap scale scaler feature =
        .ok (transform (fit d) d, some (fit d)) ∧
      embed_data fit transform fitTransform fS fM fA data .tsne scale scaler feature =
        .ok (fitTransform d, none) := by
  constructor
  · show (scaledInput fS fM fA data scale scaler feature).bind _ = _
    rw [h]
    rfl
  · show (scaledInput fS fM fA data scale scaler feature).bind _ = _
    rw [h]
    rfl

/-- C8 witness: concrete abstract algorithm operations, no scaling. -/
theorem embed_data_dispatch_witness :
    embed_data (fun _ => (1 : Nat)) (fun _ _ => (2 : Nat)) (fun _ => 3) id id id
        ⟨[("a", [1])]⟩ .umap false "StandardScaler" "All" = .ok (2, some 1) ∧
      embed_data (fun _ => (1 : Nat)) (fun _ _ => (2 : Nat)) (fun _ => 3) id id id
        ⟨[("a", [1])]⟩ .tsne false "StandardScaler" "All" = .ok (3, none) :=
  embed_data_dispatch (fun _ => (1 : Nat)) (fun _ _ => (2 : Nat)) (fun _ => 3) id id id
    ⟨[("a", [1])]⟩ false "StandardScaler" "All" (.raw ⟨[("a", [1])]⟩) rfl

theorem find?_meshSetArray_replace (a : List (String × MeshArray)) (n : String) (v : MeshArray)
    (h : a.any (fun p => p.1 == n) = true) :
    (a.map (fun p => if p.1 == n then (p.1, v) else p)).find? (fun p => p.1 == n) =
      some (n, v) := by
  induction a with
  | nil => simp at h
  | cons p t ih =>
    by_cases hp : p.1 = n
    · rw [List.map_cons, if_pos (by simp [hp])]
      rw [List.find?_cons_of_pos _ (by simp [hp]), hp]
    · rw [List.map_cons, if_neg (by simp [hp])]
      rw [List.find?_cons_of_neg _ (by simp [hp])]
      apply ih
      simpa [hp] using h

theorem find?_map_replace_other (a : List (String × MeshArray)) (name n : String)
    (v : MeshArray) (hn : n ≠ name) :
    (a.map (fun p => if p.1 == name then (p.1, v) else p)).find? (fun p => p.1 == n) =
      a.find? (fun p => p.1 == n) := by
  have hne : ¬ (name = n) := fun hh => hn hh.symm
  induction a with
  | nil => rfl
  | cons p t ih =>
    by_cases hp : p.1 = name
    · rw [List.map_cons, if_pos (by simp [hp])]
      rw [List.find?_cons_of_neg _ (by simp [hp, hne]),
        List.find?_cons_of_neg _ (by simp [hp, hne]), ih]
    · rw [List.map_cons, if_neg (by simp [hp])]
      by_cases hq : p.1 = n
      · rw [List.find?_cons_of_pos _ (by simp [hq]), List.find?_cons_of_pos _ (by simp [hq])]
      · rw [List.find?_cons_of_neg _ (by simp [hq]), List.find?_cons_of_neg _ (by simp [hq]),
          ih]

theorem find?_meshSetArray_other (a : List (String × MeshArray)) (name n : String)
    (v : MeshArray) (hn : n ≠ name) :
    (meshSetArray a name v).find? (fun p => p.1 == n) = a.find? (fun p => p.1 == n) := by
  have hne : ¬ (name = n) := fun hh => hn hh.symm
  unfold meshSetArray
  split
  · exact find?_map_replace_other a name n v hn
  · rw [List.find?_append]
    rw [List.find?_cons_of_neg _ (by simp [hne])]
    cases a.find? (fun p => p.1 == n) <;> rfl

/-- C10 counterexample: on a mesh that already holds a clusters array, the
export overwrites it in place, so no array is added (the count is unchanged,
not incremented). -/
theorem export_vtk_data_overwrites_existing :
    export_vtk_data ⟨1, [("clusters", .oneD [5])]⟩ (some [7]) =
        ⟨1, [("clusters", .oneD [7])]⟩ ∧
      (export_vtk_data ⟨1, [("clusters", .oneD [5])]⟩ (some [7])).arrays.length ≠
        (⟨1, [("clusters", .oneD [5])]⟩ : Mesh).arrays.length + 1 := by
  constructor
  · rfl
  · decide

/-- C10 amended: with labels, the export sets the clusters array to the given
labels — appending a new array (count grows by one) when none exists,
overwriting the existing one (count unchanged) otherwise — and every other
array is untouched; with no labels the mesh is written unchanged. -/
theorem export_vtk_data_sets_clusters (mesh : Mesh) (ls : Col) :
    export_vtk_data mesh none = mesh ∧
      (export_vtk_data mesh (some ls)).getArray "clusters" = some (.oneD ls) ∧
      (∀ n, n ≠ "clusters" →
        (export_vtk_data mesh (some ls)).getArray n = mesh.getArray n) ∧
      (mesh.arrays.any (fun p => p.1 == "clusters") = false →
        (export_vtk_data mesh (some ls)).arrays = mesh.arrays ++ [("clusters", .oneD ls)]) ∧
      (export_vtk_data mesh (some ls)).arrays.length =
        (if mesh.arrays.any (fun p => p.1 == "clusters") then mesh.arrays.length
          else mesh.arrays.length + 1) := by
  refine ⟨rfl, ?_, ?_, ?_, ?_⟩
  · show (Mesh.getArray ⟨mesh.n_points, meshSetArray mesh.arrays "clusters" (.oneD ls)⟩
      "clusters") = some (.oneD ls)
    unfold Mesh.getArray meshSetArray
    split
    case isTrue h => rw [find?_meshSetArray_replace mesh.arrays "clusters" (.oneD ls) h]; rfl
    case isFalse h =>
      rw [List.find?_append, List.find?_eq_none.2 ?_]
      · rfl
      · intro x hx hpx
        exact h (List.any_eq_true.2 ⟨x, hx, hpx⟩)
  · intro n hn
    show (Mesh.getArray ⟨mesh.n_points, meshSetArray mesh.arrays "clusters" (.oneD ls)⟩ n) = _
    unfold Mesh.getArray
    rw [find?_meshSetArray_other mesh.arrays "clusters" n (.oneD ls) hn]
  · intro h
    show meshSetArray mesh.arrays "clusters" (.oneD ls) = _
    unfold meshSetArray
    rw [h]
    rfl
  · show (meshSetArray mesh.arrays "clusters" (.oneD ls)).length = _
    unfold meshSetArray
    split
    case isTrue h => rw [List.length_map]
    case isFalse h =>
      rw [List.length_append]
      rfl

/-- C10 amended witness: a mesh without a clusters array gains exactly one. -/
theorem export_vtk_data_sets_clusters_witness :
    export_vtk_data ⟨2, [("P", .oneD [1, 2])]⟩ none = ⟨2, [("P", .oneD [1, 2])]⟩ ∧
      (export_vtk_data ⟨2, [("P", .oneD [1, 2])]⟩ (some [0, 1])).getArray "clusters" =
        some (.oneD [0, 1]) ∧
      (export_vtk_data ⟨2, [("P", .oneD [1, 2])]⟩ (some [0, 1])).arrays =
        [("P", .oneD [1, 2]), ("clusters", .oneD [0, 1])] := by
  have h := export_vtk_data_sets_clusters ⟨2, [("P", .oneD [1, 2])]⟩ [0, 1]
  refine ⟨h.1, h.2.1, ?_⟩
  exact (h.2.2.2.1 (by decide)).trans rfl

theorem desaturateAll_ok (l : List (Color × ℚ)) (h : ∀ cp ∈ l, 0 ≤ cp.2 ∧ cp.2 ≤ 1) :
    desaturateAll l = .ok (l.map (fun cp => scaleSaturation cp.1 cp.2)) := by
  induction l with
  | nil => rfl
  | cons cp t ih =>
    have hcp := h cp (List.mem_cons_self cp t)
    have ht := ih (fun x hx => h x (List.mem_cons_of_mem cp hx))
    show (match desaturate cp.1 cp.2 with
      | Except.error e => (Except.error e : Except String (List Color))
      | Except.ok c => (desaturateAll t).map (c :: ·)) = _
    rw [desaturate, if_pos hcp, ht]
    rfl

theorem zip_map_left_map {α β γ δ : Type} (f : α → γ) (g : γ → β → δ) (l : List α)
    (l' : List β) :
    ((l.map f).zip l').map (fun cp => g cp.1 cp.2) = (l.zip l').map (fun xp => g (f xp.1) xp.2) := by
  induction l generalizing l' with
  | nil => rfl
  | cons x t ih =>
    cases l' with
    | nil => rfl
    | cons y t' => simp [ih]

/-- C9: with `soft` false and per-point confidences in [0, 1], the colorizer
succeeds and assigns each point the hard-label palette entry (the fixed gray
for the noise label -1) with its saturation multiplied by the point
confidence; a confidence of 1 keeps the base color unchanged (full
saturation) and every desaturation amount `1 - confidence` lies in [0, 1]. -/
theorem colorizer_hard_label_desaturation (husl : Nat → List Color) (cl : HdbscanClusterer)
    (hp : ∀ p ∈ cl.probabilities, 0 ≤ p ∧ p ≤ 1) :
    set_cluster_member_colors husl cl false =
        .ok ((cl.labels.zip cl.probabilities).map
            (fun xp => scaleSaturation (hardLabelColor (hdbPalette husl cl) xp.1) xp.2),
          hdbPalette husl cl) ∧
      (∀ xp ∈ cl.labels.zip cl.probabilities, xp.2 = 1 →
        scaleSaturation (hardLabelColor (hdbPalette husl cl) xp.1) xp.2 =
          hardLabelColor (hdbPalette husl cl) xp.1) ∧
      (∀ p ∈ cl.probabilities, 0 ≤ 1 - p ∧ 1 - p ≤ 1) := by
  refine ⟨?_, ?_, ?_⟩
  · show (desaturateAll ((cl.labels.map (hardLabelColor (hdbPalette husl cl))).zip
      cl.probabilities)).map _ = _
    rw [desaturateAll_ok _ (fun cp hcp => hp cp.2 (List.of_mem_zip hcp).2)]
    rw [zip_map_left_map (hardLabelColor (hdbPalette husl cl)) scaleSaturation]
    rfl
  · intro xp _ h1
    rw [h1]
    simp [scaleSaturation]
  · intro p hpm
    have := hp p hpm
    constructor <;> linarith [this.1, this.2]

/-- C9 witness: two points, labels 0 and noise, confidences 1 and 0. -/
theorem colorizer_hard_label_desaturation_witness :
    set_cluster_member_colors (fun n => (List.range n).map (fun i => ((i : ℚ), 1, 1)))
        ⟨[0, -1], [1, 0], []⟩ false =
      .ok ([((0 : ℚ), (1 : ℚ), (1 : ℚ)), ((1/2 : ℚ), 1/2, 0)], [((0 : ℚ), 1, 1)]) := by
  have h := colorizer_hard_label_desaturation
    (fun n => (List.range n).map (fun i => ((i : ℚ), 1, 1)))
    ⟨[0, -1], [1, 0], []⟩ (by simp)
  refine h.1.trans ?_
  simp [hdbPalette, hardLabelColor, scaleSaturation, grayColor, List.dedup,
    show List.range 1 = [0] from rfl]

theorem sum_map_length_eq (vs : List Col) (hw : ∀ r ∈ vs, r.length = 3) :
    (vs.map List.length).sum = 3 * vs.length := by
  induction vs with
  | nil => simp
  | cons r t ih =>
    rw [List.map_cons, List.sum_cons, hw r (List.mem_cons_self r t),
      ih (fun x hx => hw x (List.mem_cons_of_mem r hx)), List.length_cons]
    ring

/-- C2: flattening a mesh holding one scalar array `A` of N samples and one
2-D vector array `V` of N rows and width 3 yields the table with columns
A, V:0, V:1, V:2 in that order, where column V:1 holds the second component
of every sample of V in original order, and every column has N rows. -/
theorem import_vtk_flatten (gt : Mesh → Mesh) (A V : String) (a : Col) (vs : List Col)
    (N : Nat) (hA : a.length = N) (hv : vs.length = N) (hw : ∀ r ∈ vs, r.length = 3)
    (hN : N ≠ 0) (hAV : A ≠ V) (hAg : A ≠ "vtkGhostType") (hVg : V ≠ "vtkGhostType") :
    import_vtk_data gt ⟨N, [(A, .oneD a), (V, .twoD vs)]⟩ =
        ⟨[(A, a), (V ++ ":0", vs.map (fun r => r.getD 0 0)),
          (V ++ ":1", vs.map (fun r => r.getD 1 0)),
          (V ++ ":2", vs.map (fun r => r.getD 2 0))]⟩ ∧
      DataFrame.columns ⟨[(A, a), (V ++ ":0", vs.map (fun r => r.getD 0 0)),
          (V ++ ":1", vs.map (fun r => r.getD 1 0)),
          (V ++ ":2", vs.map (fun r => r.getD 2 0))]⟩ = [A, V ++ ":0", V ++ ":1", V ++ ":2"] ∧
      ∀ c ∈ DataFrame.cols ⟨[(A, a), (V ++ ":0", vs.map (fun r => r.getD 0 0)),
          (V ++ ":1", vs.map (fun r => r.getD 1 0)),
          (V ++ ":2", vs.map (fun r => r.getD 2 0))]⟩, c.2.length = N := by
  have hsum : (vs.map List.length).sum = 3 * N := by rw [sum_map_length_eq vs hw, hv]
  have hne : 3 * N ≠ N := by omega
  have hgA : "vtkGhostType" ≠ A := Ne.symm hAg
  have hgV : "vtkGhostType" ≠ V := Ne.symm hVg
  have hVA : V ≠ A := Ne.symm hAV
  have hhead : (vs.headD []).length = 3 := by
    cases vs with
    | nil => simp at hv; omega
    | cons r t => exact hw r (List.mem_cons_self r t)
  have hhead2 : ((vs.head?.getD []).length) = 3 := by
    rw [← List.headD_eq_head?_getD]
    exact hhead
  have hbAV : (A == V) = false := by simp [hAV]
  have hbVA : (V == A) = false := by simp [hVA]
  refine ⟨?_, ?_, ?_⟩
  · simp [import_vtk_data, Mesh.arrayNames, Mesh.getArray, MeshArray.size,
      MeshArray.asColumn, vectorComponentCols, matrixColumn, List.contains_cons,
      List.find?, hsum, hne, hA, hAV, hVA, hAg, hVg, hgA, hgV, hhead, hhead2, hbAV, hbVA,
      show List.range 3 = [0, 1, 2] from rfl,
      show toString (0 : Nat) = "0" from rfl, show toString (1 : Nat) = "1" from rfl,
      show toString (2 : Nat) = "2" from rfl, String.append_assoc,
      show (":" ++ "0" : String) = ":0" from rfl, show (":" ++ "1" : String) = ":1" from rfl,
      show (":" ++ "2" : String) = ":2" from rfl]
  · simp [DataFrame.columns]
  · intro c hc
    simp only [List.mem_cons, List.not_mem_nil, or_false] at hc
    rcases hc with rfl | rfl | rfl | rfl <;> simp [hA, hv]

/-- C2 witness: a two-sample mesh with scalar `p` and width-3 vector `U`. -/
theorem import_vtk_flatten_witness :
    import_vtk_data id ⟨2, [("p", .oneD [10, 20]), ("U", .twoD [[1, 2, 3], [4, 5, 6]])]⟩ =
      ⟨[("p", [10, 20]), ("U:0", [1, 4]), ("U:1", [2, 5]), ("U:2", [3, 6])]⟩ := by
  have h := import_vtk_flatten id "p" "U" [10, 20] [[1, 2, 3], [4, 5, 6]] 2 rfl rfl
    (by simp) (by simp) (by simp) (by simp) (by simp)
  exact h.1.trans (by simp)

end DimRed
